import Mathlib

/-
Shallow embedding of the two k6 load-test scripts of this repository:
`src/fulle2etest.js` (the variant with the undeclared `newCrocodileId`
identifier) and `src/unnamed/part_000` (the variant that declares it).

Response bodies are modelled as already-parsed JSON values (`res.json()` in
k6 returns the parsed body; unparseable bodies are outside the model's
scope).  JavaScript property access on `null`/`undefined` throws a
TypeError; the embedding propagates such errors (and the ReferenceError
raised by evaluating the undeclared identifier in `fulle2etest.js`) through
`Except`-style results.  Numbers are modelled as exact rationals; the
claims exercised here only involve values on which IEEE doubles are exact.
-/

/-- JavaScript values as they occur in this script: parsed JSON bodies plus
the `undefined` produced by a missing property. -/
inductive JVal where
  | undefined
  | null
  | bool (b : Bool)
  | num (q : ℚ)
  | str (s : String)
  | arr (xs : List JVal)
  | obj (fields : List (String × JVal))

/-- JavaScript truthiness, as used by `!!accessToken` and `if (!accessToken)`. -/
def jsTruthy : JVal → Bool
  | .undefined => false
  | .null => false
  | .bool b => b
  | .num q => q != 0
  | .str s => s != ""
  | .arr _ => true
  | .obj _ => true

/-- Whether a value is `null` or `undefined` (property access on these throws). -/
def isNullish : JVal → Bool
  | .null => true
  | .undefined => true
  | _ => false

/-- Array.isArray. -/
def jsIsArray : JVal → Bool
  | .arr _ => true
  | _ => false

/-- Property access on a non-nullish value: own fields of objects, `length`
of arrays and strings (boxed primitives have no other fields read by this
script); a missing property is `undefined`. -/
def getFieldQuiet (v : JVal) (k : String) : JVal :=
  match v with
  | .obj fs =>
      match fs.find? (fun p => p.1 == k) with
      | some p => p.2
      | none => .undefined
  | .arr xs => if k == "length" then .num xs.length else .undefined
  | .str s => if k == "length" then .num s.length else .undefined
  | _ => .undefined

/-- Property access with JavaScript error semantics: reading a property of
`null` or `undefined` throws a TypeError. -/
def getFieldE (v : JVal) (k : String) : Except String JVal :=
  match v with
  | .null => .error ("TypeError: cannot read property " ++ k ++ " of null")
  | .undefined => .error ("TypeError: cannot read property " ++ k ++ " of undefined")
  | _ => .ok (getFieldQuiet v k)

/-- JavaScript strict equality on the values compared by this script.
Values of distinct types are never strictly equal; `arr`/`obj` operands
model object references, and every such comparison in the script is between
objects from distinct JSON parses, hence false. -/
def jsStrictEq : JVal → JVal → Bool
  | .undefined, .undefined => true
  | .null, .null => true
  | .bool a, .bool b => a == b
  | .num a, .num b => a == b
  | .str a, .str b => a == b
  | _, _ => false

/-- JavaScript numbers as produced by `Number(...)` and the arithmetic of
the config layer: NaN, signed infinity, or a finite value (exact rational). -/
inductive JSNum where
  | nan
  | inf (neg : Bool)
  | finite (q : ℚ)
deriving DecidableEq

/-- Truthiness of a number: NaN and zero are falsy. -/
def jsNumTruthy : JSNum → Bool
  | .nan => false
  | .inf _ => true
  | .finite q => q != 0

/-- The JavaScript expression `a || b` on a number `a`. -/
def jsNumOr (a b : JSNum) : JSNum :=
  if jsNumTruthy a then a else b

/-- Whitespace stripped by String.prototype.trim (the characters relevant
to ECMAScript WhiteSpace and LineTerminator). -/
def isJsWS (c : Char) : Bool :=
  c == ' ' || c == '\t' || c == '\n' || c == '\r' ||
  c == Char.ofNat 11 || c == Char.ofNat 12 || c == Char.ofNat 160 ||
  c == Char.ofNat 0x2028 || c == Char.ofNat 0x2029 || c == Char.ofNat 0xFEFF

/-- String.prototype.trim. -/
def jsTrim (s : String) : String :=
  ⟨((s.data.dropWhile isJsWS).reverse.dropWhile isJsWS).reverse⟩

/-- Split a character list into its leading run of decimal digits and the rest. -/
def takeDigits : List Char → List Char × List Char
  | [] => ([], [])
  | c :: cs =>
      if c.isDigit then
        let p := takeDigits cs
        (c :: p.1, p.2)
      else ([], c :: cs)

/-- Value of a list of decimal digits. -/
def digitsVal (ds : List Char) : ℕ :=
  ds.foldl (fun a c => a * 10 + (c.toNat - 48)) 0

/-- Parse the exponent part after the letter e/E of a decimal literal. -/
def parseExpTail (cs : List Char) : Option ℤ :=
  match cs with
  | '+' :: rest =>
      let p := takeDigits rest
      if !p.1.isEmpty && p.2.isEmpty then some (digitsVal p.1) else none
  | '-' :: rest =>
      let p := takeDigits rest
      if !p.1.isEmpty && p.2.isEmpty then some (-(digitsVal p.1 : ℤ)) else none
  | rest =>
      let p := takeDigits rest
      if !p.1.isEmpty && p.2.isEmpty then some (digitsVal p.1) else none

/-- Attach an optional exponent to a parsed mantissa. -/
def afterMantissa (base : ℚ) : List Char → Option ℚ
  | [] => some base
  | e :: etail =>
      if e == 'e' || e == 'E' then
        (parseExpTail etail).map (fun k => base * (10 : ℚ) ^ k)
      else none

/-- Parse an unsigned ECMAScript StrUnsignedDecimalLiteral
(digits, optional fraction, optional exponent). -/
def parseDecBody (cs : List Char) : Option ℚ :=
  let ip := takeDigits cs
  match ip.2 with
  | [] => if ip.1.isEmpty then none else some (digitsVal ip.1)
  | '.' :: rest =>
      let fp := takeDigits rest
      if ip.1.isEmpty && fp.1.isEmpty then none
      else
        afterMantissa
          ((digitsVal ip.1 : ℚ) + (digitsVal fp.1 : ℚ) / (10 : ℚ) ^ fp.1.length)
          fp.2
  | _ :: _ => if ip.1.isEmpty then none else afterMantissa (digitsVal ip.1) ip.2

/-- Value of a digit character in the given radix, if it is one. -/
def digitValIn (radix : ℕ) (c : Char) : Option ℕ :=
  let v : Option ℕ :=
    if c.isDigit then some (c.toNat - 48)
    else if 'a' ≤ c && c ≤ 'z' then some (c.toNat - 87)
    else if 'A' ≤ c && c ≤ 'Z' then some (c.toNat - 55)
    else none
  match v with
  | some n => if n < radix then some n else none
  | none => none

/-- Accumulating parser for a radix-R digit string. -/
def parseRadixAux (radix : ℕ) (acc : ℕ) : List Char → Option ℕ
  | [] => some acc
  | c :: cs =>
      match digitValIn radix c with
      | some d => parseRadixAux radix (acc * radix + d) cs
      | none => none

/-- Parse a nonempty radix-R digit string. -/
def parseRadixDigits (radix : ℕ) (cs : List Char) : Option ℕ :=
  if cs.isEmpty then none else parseRadixAux radix 0 cs

/-- Lift an optional natural parse result to a JS number (NaN on failure). -/
def natToJSNum : Option ℕ → JSNum
  | some n => .finite n
  | none => .nan

/-- Lift an optional rational parse result to a JS number (NaN on failure). -/
def ratToJSNum : Option ℚ → JSNum
  | some q => .finite q
  | none => .nan

/-- Parse an optionally signed decimal literal. -/
def decSigned (cs : List Char) : JSNum :=
  match cs with
  | '+' :: rest => ratToJSNum (parseDecBody rest)
  | '-' :: rest =>
      match parseDecBody rest with
      | some q => .finite (-q)
      | none => .nan
  | rest => ratToJSNum (parseDecBody rest)

/-- The ECMAScript Number(string) coercion: trim, empty means 0, signed
Infinity, hex/octal/binary integer literals, otherwise a signed decimal
literal; anything else is NaN. -/
def jsStringToNumber (s : String) : JSNum :=
  let t := jsTrim s
  if t == "" then .finite 0
  else if t == "Infinity" || t == "+Infinity" then .inf false
  else if t == "-Infinity" then .inf true
  else
    match t.data with
    | '0' :: c :: rest =>
        if c == 'x' || c == 'X' then natToJSNum (parseRadixDigits 16 rest)
        else if c == 'o' || c == 'O' then natToJSNum (parseRadixDigits 8 rest)
        else if c == 'b' || c == 'B' then natToJSNum (parseRadixDigits 2 rest)
        else decSigned t.data
    | _ => decSigned t.data

/-- The regex `^(\d+)([smh]?)$/i` unit characters. -/
def isDurUnit (c : Char) : Bool :=
  c == 's' || c == 'm' || c == 'h' || c == 'S' || c == 'M' || c == 'H'

/-- Whether every character of the list is a decimal digit. -/
def allDigits (cs : List Char) : Bool :=
  cs.all (fun c => c.isDigit)

/-- Result of matching a string against `^(\d+)([smh]?)$/i`: the digit
group and the optional unit character. -/
def durMatch (s : String) : Option (List Char × Option Char) :=
  match s.data.reverse with
  | [] => none
  | last :: revFront =>
      if isDurUnit last then
        let front := revFront.reverse
        if !front.isEmpty && allDigits front then some (front, some last) else none
      else if allDigits (s.data) then some (s.data, none)
      else none

/-- Transcription of resolveDurationSeconds from src/fulle2etest.js lines
188-203.  The callee receives a string, so the wrapper
`String(value || '')` is the identity on it; `raw.match` and the unit
dispatch are as in the source. -/
def resolveDurationSecondsFull (value : String) : JSNum :=
  let raw := jsTrim value
  match durMatch raw with
  | none => jsNumOr (jsStringToNumber raw) (.finite 60)
  | some (ds, unit) =>
      let amount : ℚ := digitsVal ds
      match unit with
      | some u =>
          if u.toLower == 'm' then .finite (amount * 60)
          else if u.toLower == 'h' then .finite (amount * 3600)
          else .finite amount
      | none => .finite amount

/-- Transcription of resolveDurationSeconds from src/unnamed/part_000 lines
218-233 (textually identical to the fulle2etest.js copy). -/
def resolveDurationSecondsPart (value : String) : JSNum :=
  let raw := jsTrim value
  match durMatch raw with
  | none => jsNumOr (jsStringToNumber raw) (.finite 60)
  | some (ds, unit) =>
      let amount : ℚ := digitsVal ds
      match unit with
      | some u =>
          if u.toLower == 'm' then .finite (amount * 60)
          else if u.toLower == 'h' then .finite (amount * 3600)
          else .finite amount
      | none => .finite amount

/-- Division of a JS number by the literal 10 (as in `durationSeconds / 10`). -/
def jsDivTen : JSNum → JSNum
  | .nan => .nan
  | .inf b => .inf b
  | .finite q => .finite (q / 10)

/-- Math.round on a JS number: half-up rounding toward positive infinity. -/
def jsRound : JSNum → JSNum
  | .nan => .nan
  | .inf b => .inf b
  | .finite q => .finite (Int.floor (q + 1 / 2) : ℤ)

/-- Math.max with the literal 1 as first argument: NaN propagates,
otherwise the larger value. -/
def jsMaxOne : JSNum → JSNum
  | .nan => .nan
  | .inf false => .inf false
  | .inf true => .finite 1
  | .finite q => .finite (max 1 q)

/-- Transcription of `virtualUsers` (line 7): `Number(__ENV.VUS || 5)`;
the environment variable is absent or a string. -/
def virtualUsersFull (vusEnv : Option String) : JSNum :=
  match vusEnv with
  | none => .finite 5
  | some s => if s == "" then .finite 5 else jsStringToNumber s

/-- Transcription of `virtualUsers` in src/unnamed/part_000 (line 7). -/
def virtualUsersPart (vusEnv : Option String) : JSNum :=
  match vusEnv with
  | none => .finite 5
  | some s => if s == "" then .finite 5 else jsStringToNumber s

/-- Transcription of `durationSeconds` (line 8):
`resolveDurationSeconds(__ENV.DURATION || '1m')`. -/
def durationSecondsFull (dEnv : Option String) : JSNum :=
  resolveDurationSecondsFull
    (match dEnv with
     | none => "1m"
     | some s => if s == "" then "1m" else s)

/-- Transcription of `durationSeconds` in src/unnamed/part_000 (line 8). -/
def durationSecondsPart (dEnv : Option String) : JSNum :=
  resolveDurationSecondsPart
    (match dEnv with
     | none => "1m"
     | some s => if s == "" then "1m" else s)

/-- Transcription of `rampSeconds` (line 9):
`Math.max(1, Math.round(durationSeconds / 10))`. -/
def rampSecondsFull (durationSeconds : JSNum) : JSNum :=
  jsMaxOne (jsRound (jsDivTen durationSeconds))

/-- Transcription of `rampSeconds` in src/unnamed/part_000 (line 9). -/
def rampSecondsPart (durationSeconds : JSNum) : JSNum :=
  jsMaxOne (jsRound (jsDivTen durationSeconds))

/-- One entry of `options.stages`: the duration (in seconds, the numeric
part of the rendered duration string) and the VU target. -/
structure Stage where
  duration : JSNum
  target : JSNum
deriving DecidableEq

/-- Transcription of `options.stages` (lines 13-17) as a function of the
derived `virtualUsers` and `durationSeconds` constants. -/
def stagesFull (virtualUsers durationSeconds : JSNum) : List Stage :=
  [⟨rampSecondsFull durationSeconds, virtualUsers⟩,
   ⟨durationSeconds, virtualUsers⟩,
   ⟨rampSecondsFull durationSeconds, .finite 0⟩]

/-- Transcription of `options.stages` in src/unnamed/part_000 (lines 13-17). -/
def stagesPart (virtualUsers durationSeconds : JSNum) : List Stage :=
  [⟨rampSecondsPart durationSeconds, virtualUsers⟩,
   ⟨durationSeconds, virtualUsers⟩,
   ⟨rampSecondsPart durationSeconds, .finite 0⟩]

/-- The `options.thresholds` object (lines 21-24). -/
structure Thresholds where
  httpReqDuration : List String
  checksRate : List String
deriving DecidableEq

/-- Transcription of the thresholds of src/fulle2etest.js. -/
def thresholdsFull : Thresholds :=
  ⟨["p(90)<1200", "p(95)<1500"], ["rate>=0.99"]⟩

/-- Transcription of the thresholds of src/unnamed/part_000. -/
def thresholdsPart : Thresholds :=
  ⟨["p(90)<1200", "p(95)<1500"], ["rate>=0.99"]⟩

/-- An HTTP response as the script observes it: the numeric status and the
parsed JSON body. -/
structure Response where
  status : ℕ
  body : JVal

/-- The environment of one iteration: the random suffixes produced by
`randomString(10)` for the credentials, and the responses the API returns
to the (at most eight) requests, in the fixed order the script issues them. -/
structure Env where
  userSuffix : String
  passSuffix : String
  reg : Response
  login : Response
  list : Response
  create : Response
  detail : Response
  put : Response
  patch : Response
  del : Response

/-- HTTP method of a request issued by the script. -/
inductive Method where
  | get
  | post
  | put
  | patch
  | del
deriving DecidableEq

/-- Request target, relative to baseUrl, as built in `endpoints` and in the
template literals: the detail path carries the interpolated id value. -/
inductive Endpoint where
  | base
  | register
  | login
  | crocodiles
  | crocodileDetail (id : JVal)

/-- One HTTP request issued by the script. -/
structure Request where
  method : Method
  url : Endpoint

/-- Observable outcome of one iteration: the requests issued, the checks
recorded (name and boolean outcome, in order), and the uncaught runtime
error, if the iteration was interrupted by one. -/
structure IterResult where
  requests : List Request
  checks : List (String × Bool)
  error : Option String

/-- The message of the ReferenceError raised at line 119 of
src/fulle2etest.js, where the never-declared `newCrocodileId` is evaluated
(an ES module runs in strict mode, so the access throws). -/
def refErrMsg : String := "ReferenceError: newCrocodileId is not defined"

/-- The `registerBody` local of part_000 (lines 58-61). -/
def registerBodyPart (env : Env) : JVal :=
  if env.reg.status == 201 then env.reg.body else JVal.obj []

/-- The `newCrocodileId` local of part_000 (lines 124-127), with a thrown
TypeError represented on the error side. -/
def newCrocodileIdPart (env : Env) : Except String JVal :=
  if env.create.status == 201 then getFieldE env.create.body "id" else Except.ok JVal.null

/-- The `accessToken` local of both variants (lines 78-81 resp. 73-76),
with a thrown TypeError on the error side. -/
def accessTokenOf (env : Env) : Except String JVal :=
  if env.login.status == 200 then getFieldE env.login.body "access" else Except.ok (.str "")

/-- Transcription of the default (iteration) function of
src/unnamed/part_000, lines 36-212.  `sleep(randomIntBetween(0, 5))` has no
observable effect in this model and is dropped; each `http.*` call appends
a request; each `check` appends its named outcomes in order.  A thrown
TypeError (property read on a nullish body) ends the iteration at that
point, after the checks already evaluated. -/
def journeyPart (env : Env) : IterResult :=
  let uname := "test_" ++ env.userSuffix
  let r1 : List Request := [⟨.post, .register⟩]
  let c1a := ("RegisterUser | status 201", env.reg.status == 201)
  match getFieldE (registerBodyPart env) "username" with
  | .error e => ⟨r1, [c1a], some e⟩
  | .ok regUsername =>
  let cs1 := [c1a, ("RegisterUser | username matches", jsStrictEq regUsername (.str uname))]
  let r2 := r1 ++ [⟨.post, .login⟩]
  match accessTokenOf env with
  | .error e => ⟨r2, cs1, some e⟩
  | .ok accessToken =>
  let cs2 := cs1 ++ [("LoginUser | status 200", env.login.status == 200),
                     ("LoginUser | token received", jsTruthy accessToken)]
  if !jsTruthy accessToken then ⟨r2, cs2, none⟩ else
  let r3 := r2 ++ [⟨.get, .crocodiles⟩]
  let listBody := if env.list.status == 200 then env.list.body else JVal.arr []
  let cs3 := cs2 ++ [("GetMyCrocodiles | status 200", env.list.status == 200),
                     ("GetMyCrocodiles | empty list",
                      jsIsArray listBody && jsStrictEq (getFieldQuiet listBody "length") (.num 0))]
  let r4 := r3 ++ [⟨.post, .crocodiles⟩]
  match newCrocodileIdPart env with
  | .error e => ⟨r4, cs3, some e⟩
  | .ok newCrocodileId =>
  let cs4 := cs3 ++ [("AddCrocodile | status 201", env.create.status == 201),
                     ("AddCrocodile | id issued", !jsStrictEq newCrocodileId JVal.null)]
  if jsStrictEq newCrocodileId JVal.null then ⟨r4, cs4, none⟩ else
  let r5 := r4 ++ [⟨.get, .crocodileDetail newCrocodileId⟩]
  let detailBody := if env.detail.status == 200 then env.detail.body else JVal.obj []
  let c5a := ("GetCrocodile | status 200", env.detail.status == 200)
  match getFieldE detailBody "id" with
  | .error e => ⟨r5, cs4 ++ [c5a], some e⟩
  | .ok detailId =>
  let cs5 := cs4 ++ [c5a, ("GetCrocodile | correct id", jsStrictEq detailId newCrocodileId)]
  let r6 := r5 ++ [⟨.put, .crocodileDetail newCrocodileId⟩]
  let putBody := if env.put.status == 200 then env.put.body else JVal.obj []
  let c6a := ("PutCrocodile | status 200", env.put.status == 200)
  match getFieldE putBody "name" with
  | .error e => ⟨r6, cs5 ++ [c6a], some e⟩
  | .ok putName =>
  let cs6 := cs5 ++ [c6a, ("PutCrocodile | name updated", jsStrictEq putName (.str "Anzhella"))]
  let r7 := r6 ++ [⟨.patch, .crocodileDetail newCrocodileId⟩]
  let patchBody := if env.patch.status == 200 then env.patch.body else JVal.obj []
  let c7a := ("PatchCrocodile | status 200", env.patch.status == 200)
  match getFieldE patchBody "sex" with
  | .error e => ⟨r7, cs6 ++ [c7a], some e⟩
  | .ok patchSex =>
  let cs7 := cs6 ++ [c7a, ("PatchCrocodile | gender updated", jsStrictEq patchSex (.str "F"))]
  let r8 := r7 ++ [⟨.del, .crocodileDetail newCrocodileId⟩]
  let cs8 := cs7 ++ [("DeleteCrocodile | status 204/200",
                      env.del.status == 204 || env.del.status == 200)]
  ⟨r8, cs8, none⟩

/-- Transcription of the default (iteration) function of
src/fulle2etest.js, lines 36-182.  It differs from the part_000 variant in
reading `r.json()` directly inside the payload check of the register, list
and create steps, and in line 119: the identifier `newCrocodileId` is
never declared, so evaluating `newCrocodileId === null` throws a
ReferenceError.  The reference is modelled as the error value bound below;
the branch that would follow a successful read (steps 5-8, lines 123-182)
is transcribed but unreachable. -/
def journeyFull (env : Env) : IterResult :=
  let uname := "test_" ++ env.userSuffix
  let r1 : List Request := [⟨.post, .register⟩]
  let c1a := ("RegisterUser | status 201", env.reg.status == 201)
  match getFieldE env.reg.body "username" with
  | .error e => ⟨r1, [c1a], some e⟩
  | .ok regUsername =>
  let cs1 := [c1a, ("RegisterUser | username matches", jsStrictEq regUsername (.str uname))]
  let r2 := r1 ++ [⟨.post, .login⟩]
  match accessTokenOf env with
  | .error e => ⟨r2, cs1, some e⟩
  | .ok accessToken =>
  let cs2 := cs1 ++ [("LoginUser | status 200", env.login.status == 200),
                     ("LoginUser | token received", jsTruthy accessToken)]
  if !jsTruthy accessToken then ⟨r2, cs2, none⟩ else
  let r3 := r2 ++ [⟨.get, .crocodiles⟩]
  let c3a := ("GetMyCrocodiles | status 200", env.list.status == 200)
  match getFieldE env.list.body "length" with
  | .error e => ⟨r3, cs2 ++ [c3a], some e⟩
  | .ok listLen =>
  let cs3 := cs2 ++ [c3a, ("GetMyCrocodiles | empty list", jsStrictEq listLen (.num 0))]
  let r4 := r3 ++ [⟨.post, .crocodiles⟩]
  let c4a := ("AddCrocodile | status 201", env.create.status == 201)
  match getFieldE env.create.body "id" with
  | .error e => ⟨r4, cs3 ++ [c4a], some e⟩
  | .ok createId =>
  let cs4 := cs3 ++ [c4a, ("AddCrocodile | id issued", !jsStrictEq createId JVal.null)]
  match (Except.error refErrMsg : Except String JVal) with
  | .error e => ⟨r4, cs4, some e⟩
  | .ok newCrocodileId =>
  if jsStrictEq newCrocodileId JVal.null then ⟨r4, cs4, none⟩ else
  let r5 := r4 ++ [⟨.get, .crocodileDetail newCrocodileId⟩]
  let c5a := ("GetCrocodile | status 200", env.detail.status == 200)
  match getFieldE env.detail.body "id" with
  | .error e => ⟨r5, cs4 ++ [c5a], some e⟩
  | .ok detailId =>
  let cs5 := cs4 ++ [c5a, ("GetCrocodile | correct id", jsStrictEq detailId newCrocodileId)]
  let r6 := r5 ++ [⟨.put, .crocodileDetail newCrocodileId⟩]
  let c6a := ("PutCrocodile | status 200", env.put.status == 200)
  match getFieldE env.put.body "name" with
  | .error e => ⟨r6, cs5 ++ [c6a], some e⟩
  | .ok putName =>
  let cs6 := cs5 ++ [c6a, ("PutCrocodile | name updated", jsStrictEq putName (.str "Anzhella"))]
  let r7 := r6 ++ [⟨.patch, .crocodileDetail newCrocodileId⟩]
  let c7a := ("PatchCrocodile | status 200", env.patch.status == 200)
  match getFieldE env.patch.body "sex" with
  | .error e => ⟨r7, cs6 ++ [c7a], some e⟩
  | .ok patchSex =>
  let cs7 := cs6 ++ [c7a, ("PatchCrocodile | gender updated", jsStrictEq patchSex (.str "F"))]
  let r8 := r7 ++ [⟨.del, .crocodileDetail newCrocodileId⟩]
  let cs8 := cs7 ++ [("DeleteCrocodile | status 204/200",
                      env.del.status == 204 || env.del.status == 200)]
  ⟨r8, cs8, none⟩

/-- Transcription of `setup()` (lines 27-34, identical in both variants):
it issues a GET to the base URL and, when the status is not 200, aborts
the whole run via `exec.test.abort('Service is not available')`.  The
result is the request issued and the abort message, if any. -/
def setupPart (res : Response) : Request × Option String :=
  (⟨.get, .base⟩, if res.status != 200 then some "Service is not available" else none)

/-- The k6 execution contract around the script: `setup` runs once before
any iteration; an abort in setup means no iteration executes; otherwise
the driver runs iterations of the default function (here listed by their
environments). -/
def testRunPart (health : Response) (iters : List Env) : Except String (List IterResult) :=
  match (setupPart health).2 with
  | some msg => Except.error msg
  | none => Except.ok (iters.map journeyPart)

/-- Whether a request targets the resource detail path `/my/crocodiles/id/`. -/
def isDetailReq (r : Request) : Bool :=
  match r.url with
  | .crocodileDetail _ => true
  | _ => false

/-- Whether a request is the create step's POST to the collection. -/
def isCreateReq (r : Request) : Bool :=
  match r with
  | ⟨.post, .crocodiles⟩ => true
  | _ => false

/-- Whether a request is the list step's GET of the collection. -/
def isListReq (r : Request) : Bool :=
  match r with
  | ⟨.get, .crocodiles⟩ => true
  | _ => false

/-- Whether a request is the delete step's DELETE. -/
def isDelReq (r : Request) : Bool :=
  match r.method with
  | .del => true
  | _ => false

/-- Whether the captured crocodile id passes the strict `!== null` guard of
line 134 (false also when capturing it already threw). -/
def capturedIdNonNull (env : Env) : Bool :=
  match newCrocodileIdPart env with
  | .ok v => !jsStrictEq v JVal.null
  | .error _ => false

/-- The spec's notion of obtaining a token: status 200 and a non-empty
string in the `access` field of the login body. -/
def nonEmptyToken (env : Env) : Bool :=
  env.login.status == 200 &&
    (match getFieldQuiet env.login.body "access" with
     | .str s => s != ""
     | _ => false)

/-- Sanity of the login payload: the `access` field, when the login body is
readable, is a string or absent/null (as the auth API produces); rules out
non-string truthy tokens. -/
def accessFieldSane (env : Env) : Bool :=
  match getFieldQuiet env.login.body "access" with
  | .str _ => true
  | .null => true
  | .undefined => true
  | _ => false

/-- The register step of part_000 cannot throw: a 201 body is not nullish. -/
def regReadSafePart (env : Env) : Bool :=
  env.reg.status != 201 || !isNullish env.reg.body

/-- The register step of fulle2etest.js reads `r.json().username`
unconditionally, so its body must not be nullish for the step not to throw. -/
def regReadSafeFull (env : Env) : Bool :=
  !isNullish env.reg.body

/-- The login assignment reads `response.json().access` when the status is
200, so a 200 body must not be nullish for the step not to throw. -/
def loginReadSafe (env : Env) : Bool :=
  env.login.status != 200 || !isNullish env.login.body

/-- An environment on which the part_000 journey completes all eight steps
with every check passing. -/
def envHappy : Env :=
  { userSuffix := "u"
    passSuffix := "p"
    reg := ⟨201, .obj [("username", .str "test_u")]⟩
    login := ⟨200, .obj [("access", .str "tok")]⟩
    list := ⟨200, .arr []⟩
    create := ⟨201, .obj [("id", .num 1)]⟩
    detail := ⟨200, .obj [("id", .num 1)]⟩
    put := ⟨200, .obj [("name", .str "Anzhella")]⟩
    patch := ⟨200, .obj [("sex", .str "F")]⟩
    del := ⟨204, .null⟩ }

/-- An environment whose create response is a 201 whose body carries no
`id` field at all: the captured id is `undefined`. -/
def envNoId : Env :=
  { userSuffix := "u"
    passSuffix := "p"
    reg := ⟨201, .obj [("username", .str "test_u")]⟩
    login := ⟨200, .obj [("access", .str "tok")]⟩
    list := ⟨200, .arr []⟩
    create := ⟨201, .obj []⟩
    detail := ⟨200, .obj [("id", .num 1)]⟩
    put := ⟨200, .obj [("name", .str "Anzhella")]⟩
    patch := ⟨200, .obj [("sex", .str "F")]⟩
    del := ⟨204, .null⟩ }

/-- An environment whose login is rejected (HTTP 401, no token). -/
def envNoLogin : Env :=
  { userSuffix := "u"
    passSuffix := "p"
    reg := ⟨400, .obj [("username", .str "taken")]⟩
    login := ⟨401, .obj [("detail", .str "invalid credentials")]⟩
    list := ⟨200, .arr []⟩
    create := ⟨201, .obj [("id", .num 1)]⟩
    detail := ⟨200, .obj [("id", .num 1)]⟩
    put := ⟨200, .obj [("name", .str "Anzhella")]⟩
    patch := ⟨200, .obj [("sex", .str "F")]⟩
    del := ⟨204, .null⟩ }

/-- An environment whose create request is rejected with HTTP 400. -/
def envCreateFail : Env :=
  { envHappy with create := ⟨400, .obj [("detail", .str "bad request")]⟩ }

/-- The check names the part_000 journey records when it runs all eight
steps, in order: two per step except the delete step, which has one. -/
def journeyCheckNames : List String :=
  ["RegisterUser | status 201", "RegisterUser | username matches",
   "LoginUser | status 200", "LoginUser | token received",
   "GetMyCrocodiles | status 200", "GetMyCrocodiles | empty list",
   "AddCrocodile | status 201", "AddCrocodile | id issued",
   "GetCrocodile | status 200", "GetCrocodile | correct id",
   "PutCrocodile | status 200", "PutCrocodile | name updated",
   "PatchCrocodile | status 200", "PatchCrocodile | gender updated",
   "DeleteCrocodile | status 204/200"]

/-- Failure of the registration step in the claim's sense: status other
than 201, or the body's username not strictly equal to the submitted one. -/
def regFailedPart (env : Env) : Bool :=
  !(env.reg.status == 201 &&
    jsStrictEq (getFieldQuiet (registerBodyPart env) "username")
      (.str ("test_" ++ env.userSuffix)))

/-- Reading a field of a non-nullish value does not throw and yields the
quiet field value. -/
theorem getFieldE_ok (v : JVal) (k : String) (h : isNullish v = false) :
    getFieldE v k = .ok (getFieldQuiet v k) := by
  cases v <;> simp_all [isNullish, getFieldE]

/-- C3: resolveDurationSeconds maps "2m" to 120 seconds, "90" to 90, "1h"
to 3600, and malformed input such as "abc" to the fallback value 60, in
both script variants. -/
theorem resolve_duration_examples :
    resolveDurationSecondsFull "2m" = .finite 120 ∧
    resolveDurationSecondsFull "90" = .finite 90 ∧
    resolveDurationSecondsFull "1h" = .finite 3600 ∧
    resolveDurationSecondsFull "abc" = .finite 60 ∧
    resolveDurationSecondsPart "2m" = .finite 120 ∧
    resolveDurationSecondsPart "90" = .finite 90 ∧
    resolveDurationSecondsPart "1h" = .finite 3600 ∧
    resolveDurationSecondsPart "abc" = .finite 60 := by
  refine ⟨?_, ?_, ?_, ?_, ?_, ?_, ?_, ?_⟩ <;> with_unfolding_all rfl

/-- C10: the configuration layers of the two variants are extensionally
identical: duration resolution, virtual users, steady duration, ramp,
stages and thresholds agree for every environment input. -/
theorem variants_config_equivalent :
    (∀ s : String, resolveDurationSecondsFull s = resolveDurationSecondsPart s) ∧
    (∀ vE dE : Option String,
       virtualUsersFull vE = virtualUsersPart vE ∧
       durationSecondsFull dE = durationSecondsPart dE ∧
       rampSecondsFull (durationSecondsFull dE) = rampSecondsPart (durationSecondsPart dE) ∧
       stagesFull (virtualUsersFull vE) (durationSecondsFull dE)
         = stagesPart (virtualUsersPart vE) (durationSecondsPart dE)) ∧
    thresholdsFull = thresholdsPart :=
  ⟨fun _ => rfl, fun _ _ => ⟨rfl, rfl, rfl, rfl⟩, rfl⟩

/-- C4: for every finite steady duration d the ramp equals
max(1, round(d / 10)) and is the duration of the first and third stage
with the steady stage between them; d = 65 gives a 7 second ramp, and the
floor of 1 can only take effect (round(d / 10) < 1) when d < 10. -/
theorem ramp_seconds_spec (v : JSNum) (d : ℚ) :
    rampSecondsFull (.finite d) = .finite ((max 1 (round (d / 10)) : ℤ) : ℚ) ∧
    rampSecondsPart (.finite d) = .finite ((max 1 (round (d / 10)) : ℤ) : ℚ) ∧
    stagesFull v (.finite d) =
      [⟨.finite ((max 1 (round (d / 10)) : ℤ) : ℚ), v⟩,
       ⟨.finite d, v⟩,
       ⟨.finite ((max 1 (round (d / 10)) : ℤ) : ℚ), .finite 0⟩] ∧
    stagesPart v (.finite d) =
      [⟨.finite ((max 1 (round (d / 10)) : ℤ) : ℚ), v⟩,
       ⟨.finite d, v⟩,
       ⟨.finite ((max 1 (round (d / 10)) : ℤ) : ℚ), .finite 0⟩] ∧
    (round (d / 10) < 1 → d < 10) ∧
    rampSecondsFull (.finite 65) = .finite 7 := by
  have key : rampSecondsFull (.finite d) = .finite ((max 1 (round (d / 10)) : ℤ) : ℚ) := by
    simp only [rampSecondsFull, jsMaxOne, jsRound, jsDivTen, round_eq]
    congr 1
    push_cast
    rfl
  have hlt : round (d / 10) < 1 → d < 10 := by
    intro h
    rw [round_eq] at h
    have h2 : (d / 10 + 1 / 2 : ℚ) < (1 : ℤ) := Int.floor_lt.mp h
    push_cast at h2
    linarith
  refine ⟨key, key, ?_, ?_, hlt, by with_unfolding_all rfl⟩
  · simp only [stagesFull, key]
  · simp only [stagesPart]
    rw [show rampSecondsPart (.finite d) = rampSecondsFull (.finite d) from rfl, key]

/-- Witness for ramp_seconds_spec at v = 5 VUs and d = 2 seconds, where the
floor of 1 takes effect and d is indeed below 10. -/
theorem ramp_seconds_spec_witness :
    rampSecondsFull (.finite 2) = .finite 1 ∧ ((2 : ℚ) < 10) := by
  have h := ramp_seconds_spec (.finite 5) 2
  have hr : round ((2 : ℚ) / 10) = 0 := by norm_num [round_eq]
  constructor
  · rw [h.1, hr]
    norm_num
  · exact h.2.2.2.2.1 (by rw [hr]; norm_num)

/-- C8: the availability precheck issues a GET to the base URL once before
any iteration; the whole run is aborted if and only if the health response
status is not 200, and no iteration executes in that case. -/
theorem setup_abort_iff_not_ok (health : Response) (iters : List Env) :
    (setupPart health).1 = ⟨.get, .base⟩ ∧
    (health.status ≠ 200 → testRunPart health iters = .error "Service is not available") ∧
    (health.status = 200 → testRunPart health iters = .ok (iters.map journeyPart)) := by
  refine ⟨rfl, ?_, ?_⟩
  · intro h
    simp [testRunPart, setupPart, h]
  · intro h
    simp [testRunPart, setupPart, h]

/-- Witness for setup_abort_iff_not_ok: a 500 health response aborts the
run with no iterations; a 200 health response lets the (empty) run proceed. -/
theorem setup_abort_iff_not_ok_witness :
    testRunPart ⟨500, .null⟩ [] = .error "Service is not available" ∧
    testRunPart ⟨200, .null⟩ [] = .ok [] := by
  have h1 := (setup_abort_iff_not_ok ⟨500, .null⟩ []).2.1 (by norm_num)
  have h2 := (setup_abort_iff_not_ok ⟨200, .null⟩ []).2.2 rfl
  exact ⟨h1, h2⟩

/-- C9: on input not matching the digits-plus-optional-unit pattern,
resolveDurationSeconds returns the Number coercion of the trimmed input
whenever that coercion is truthy (nonzero, non-NaN), and falls back to 60
exactly when the coercion is NaN or 0; "-5", "5.5" and "1e3" come back as
their coerced values and the pattern-matching input "0" returns 0, not 60. -/
theorem resolve_duration_coercion_fallback (s : String) (q : ℚ) :
    (durMatch (jsTrim s) = none →
      ((jsStringToNumber (jsTrim s) = .finite q → q ≠ 0 →
          resolveDurationSecondsPart s = .finite q) ∧
       (jsStringToNumber (jsTrim s) = .nan ∨ jsStringToNumber (jsTrim s) = .finite 0 →
          resolveDurationSecondsPart s = .finite 60))) ∧
    resolveDurationSecondsPart "-5" = .finite (-5) ∧
    resolveDurationSecondsPart "5.5" = .finite (11 / 2) ∧
    resolveDurationSecondsPart "1e3" = .finite 1000 ∧
    resolveDurationSecondsPart "0" = .finite 0 := by
  refine ⟨?_, by with_unfolding_all rfl, by with_unfolding_all rfl,
          by with_unfolding_all rfl, by with_unfolding_all rfl⟩
  intro hm
  constructor
  · intro h1 h2
    simp only [resolveDurationSecondsPart, hm, h1, jsNumOr, jsNumTruthy]
    simp [h2]
  · intro h
    rcases h with h | h <;>
      simp only [resolveDurationSecondsPart, hm, h, jsNumOr, jsNumTruthy] <;> simp

/-- Witness for resolve_duration_coercion_fallback: "7.5" does not match
the pattern and coerces to the nonzero 15/2, which is returned; "x9"
coerces to NaN and falls back to 60. -/
theorem resolve_duration_coercion_fallback_witness :
    resolveDurationSecondsPart "7.5" = .finite (15 / 2) ∧
    resolveDurationSecondsPart "x9" = .finite 60 := by
  have h1 := ((resolve_duration_coercion_fallback "7.5" (15 / 2)).1
    (by with_unfolding_all rfl)).1 (by with_unfolding_all rfl) (by norm_num)
  have h2 := ((resolve_duration_coercion_fallback "x9" 0).1
    (by with_unfolding_all rfl)).2 (Or.inl (by with_unfolding_all rfl))
  exact ⟨h1, h2⟩

/-- C6 counterexample: on a fully completing iteration the script records
fifteen checks, not two per step: the delete step contributes a single
status check and no payload check. -/
theorem delete_step_single_check_cex :
    (journeyPart envHappy).checks.length = 15 ∧
    ((journeyPart envHappy).checks.filter
       (fun c => c.1 == "DeleteCrocodile | status 204/200")).length = 1 ∧
    (journeyPart envHappy).checks.map Prod.fst = journeyCheckNames := by
  refine ⟨?_, ?_, ?_⟩ <;> with_unfolding_all rfl

/-- C6 amended: every iteration of the part_000 journey that reaches the
delete request records exactly the fifteen named checks, two per step
(status plus payload) for the first seven steps and a single status check
for the delete step, and ends without a runtime error; check outcomes are
recorded, never thrown. -/
theorem per_step_check_names (env : Env)
    (h : (journeyPart env).requests.any isDelReq = true) :
    (journeyPart env).checks.map Prod.fst = journeyCheckNames ∧
    (journeyPart env).error = none := by
  simp only [journeyPart] at h ⊢
  split at h
  · simp [isDelReq] at h
  · split at h
    · simp [isDelReq] at h
    · split at h
      · simp [isDelReq] at h
      · split at h
        · simp [isDelReq] at h
        · split at h
          · simp [isDelReq] at h
          · split at h
            · simp [isDelReq] at h
            · split at h
              · simp [isDelReq] at h
              · split at h
                · simp [isDelReq] at h
                · simp_all [journeyCheckNames]

/-- Witness for per_step_check_names at the fully passing environment. -/
theorem per_step_check_names_witness :
    (journeyPart envHappy).checks.map Prod.fst = journeyCheckNames ∧
    (journeyPart envHappy).error = none :=
  per_step_check_names envHappy (by with_unfolding_all rfl)

/-- C2 counterexample: a 201 create response whose body has no id field at
all captures `undefined`, which passes the strict `!== null` guard: the
iteration does not terminate early and the detail-path requests are
issued, although the response did not return a non-null id. -/
theorem create_guard_undefined_id_proceeds_cex :
    envNoId.create.status = 201 ∧
    getFieldQuiet envNoId.create.body "id" = JVal.undefined ∧
    (journeyPart envNoId).requests.any isDetailReq = true ∧
    (journeyPart envNoId).error = none := by
  refine ⟨rfl, rfl, ?_, ?_⟩ <;> with_unfolding_all rfl

/-- C2 amended: for every iteration reaching the create request, the
iteration goes on to the detail-path requests exactly when the captured id
passes the strict not-null guard (status 201 and an id field that is not
literally null; a missing id gives undefined, which passes); when the
guard fails the iteration stops right after the create step with exactly
the four collection-level requests issued. -/
theorem create_guard_terminates_iff_null_id (env : Env)
    (h : (journeyPart env).requests.any isCreateReq = true) :
    (journeyPart env).requests.any isDetailReq = capturedIdNonNull env ∧
    (capturedIdNonNull env = false →
      (journeyPart env).requests =
        [⟨.post, .register⟩, ⟨.post, .login⟩, ⟨.get, .crocodiles⟩, ⟨.post, .crocodiles⟩]) := by
  simp only [journeyPart] at h ⊢
  split at h
  · simp [isCreateReq] at h
  · split at h
    · simp [isCreateReq] at h
    · split at h
      · simp [isCreateReq] at h
      · split at h
        · simp_all [capturedIdNonNull, newCrocodileIdPart, isDetailReq]
        · split at h
          · simp_all [capturedIdNonNull, newCrocodileIdPart, isDetailReq]
          · repeat'
              first
              | (simp_all [capturedIdNonNull, newCrocodileIdPart, isDetailReq]; done)
              | split

/-- Witness for create_guard_terminates_iff_null_id: a 400 create response
makes the guard stop the iteration after the fourth request. -/
theorem create_guard_terminates_iff_null_id_witness :
    (journeyPart envCreateFail).requests.any isDetailReq = false ∧
    (journeyPart envCreateFail).requests =
      [⟨.post, .register⟩, ⟨.post, .login⟩, ⟨.get, .crocodiles⟩, ⟨.post, .crocodiles⟩] := by
  have h := create_guard_terminates_iff_null_id envCreateFail (by with_unfolding_all rfl)
  refine ⟨?_, h.2 (by with_unfolding_all rfl)⟩
  rw [h.1]
  with_unfolding_all rfl

/-- C1: in src/fulle2etest.js the identifier `newCrocodileId` is never
declared, so every iteration that reaches the create request ends in a
runtime error instead of completing the journey (a ReferenceError at the
id guard whenever the id read itself did not already throw), and no
request ever targets the resource detail path; the part_000 variant
declares the identifier and completes the whole journey, detail requests
included. -/
theorem fulle2e_undeclared_crocodile_id_fails :
    (∀ env : Env, (journeyFull env).requests.any isCreateReq = true →
       (journeyFull env).error.isSome = true ∧
       (journeyFull env).requests.all (fun r => !isDetailReq r) = true) ∧
    (∀ env : Env, (journeyFull env).requests.any isCreateReq = true →
       (getFieldE env.create.body "id").isOk = true →
       (journeyFull env).error = some refErrMsg) ∧
    (journeyPart envHappy).error = none ∧
    (journeyPart envHappy).requests.any isCreateReq = true ∧
    (journeyPart envHappy).requests.any isDetailReq = true := by
  refine ⟨?_, ?_, by with_unfolding_all rfl, by with_unfolding_all rfl,
          by with_unfolding_all rfl⟩
  · intro env h
    simp only [journeyFull] at h ⊢
    repeat'
      first
      | (simp_all [isCreateReq, isDetailReq]; done)
      | split at h
  · intro env h h2
    simp only [journeyFull] at h ⊢
    repeat'
      first
      | (simp_all [isCreateReq, isDetailReq, Except.isOk, Except.toBool]; done)
      | split at h

/-- Witness for fulle2e_undeclared_crocodile_id_fails at the fully passing
environment: the buggy variant stops with the ReferenceError and never
touches the detail path. -/
theorem fulle2e_undeclared_crocodile_id_fails_witness :
    (journeyFull envHappy).error = some refErrMsg ∧
    (journeyFull envHappy).requests.all (fun r => !isDetailReq r) = true := by
  have h1 := fulle2e_undeclared_crocodile_id_fails.1 envHappy (by with_unfolding_all rfl)
  have h2 := fulle2e_undeclared_crocodile_id_fails.2.1 envHappy
    (by with_unfolding_all rfl) (by with_unfolding_all rfl)
  exact ⟨h2, h1.2⟩

/-- C5: under sane payloads (readable bodies on success statuses and a
string-or-absent access field), an iteration stops right after the two
login checks — with only the register and login requests issued and no
error — exactly when no non-empty token is obtained (login status not 200
or access not a non-empty string); with a non-empty token it proceeds to
the resource steps, issuing the collection GET. -/
theorem login_guard_early_return (env : Env)
    (h1 : regReadSafePart env = true)
    (h2 : loginReadSafe env = true)
    (h3 : accessFieldSane env = true) :
    (nonEmptyToken env = false →
      (journeyPart env).requests = [⟨.post, .register⟩, ⟨.post, .login⟩] ∧
      (journeyPart env).checks.map Prod.fst =
        ["RegisterUser | status 201", "RegisterUser | username matches",
         "LoginUser | status 200", "LoginUser | token received"] ∧
      (journeyPart env).error = none) ∧
    (nonEmptyToken env = true →
      (journeyPart env).requests.any isListReq = true) := by
  have hreg : isNullish (registerBodyPart env) = false := by
    unfold registerBodyPart
    by_cases hc : (env.reg.status == 201) = true
    · simp only [regReadSafePart, hc, bne, Bool.not_true, Bool.false_or] at h1
      simp only [hc, if_true]
      simpa using h1
    · simp [hc, isNullish]
  have hu := getFieldE_ok (registerBodyPart env) "username" hreg
  have hB : accessTokenOf env =
      Except.ok (if (env.login.status == 200) = true
                 then getFieldQuiet env.login.body "access" else JVal.str "") := by
    unfold accessTokenOf
    by_cases hc : (env.login.status == 200) = true
    · simp only [loginReadSafe, hc, bne, Bool.not_true, Bool.false_or] at h2
      simp only [hc, if_true]
      exact getFieldE_ok _ _ (by simpa using h2)
    · simp [hc]
  have hC : jsTruthy (if (env.login.status == 200) = true
                      then getFieldQuiet env.login.body "access" else JVal.str "")
      = nonEmptyToken env := by
    by_cases hc : (env.login.status == 200) = true
    · simp only [hc, if_true, nonEmptyToken, Bool.true_and]
      simp only [accessFieldSane] at h3
      rcases hv : getFieldQuiet env.login.body "access" with _ | _ | b | q | s | xs | fs <;>
        simp_all [jsTruthy]
    · simp [hc, nonEmptyToken, jsTruthy]
  constructor
  · intro hne
    rw [hne] at hC
    simp only [journeyPart, hu, hB, hC]
    simp
  · intro hye
    rw [hye] at hC
    simp only [journeyPart, hu, hB, hC]
    clear h1 h2 h3 hreg hu hB hC
    repeat'
      first
      | (simp_all [isListReq]; done)
      | split

/-- Witness for login_guard_early_return: a 401 login stops the iteration
after the login checks, and the passing environment proceeds to the
collection GET. -/
theorem login_guard_early_return_witness :
    (journeyPart envNoLogin).requests = [⟨.post, .register⟩, ⟨.post, .login⟩] ∧
    (journeyPart envNoLogin).error = none ∧
    (journeyPart envHappy).requests.any isListReq = true := by
  have ha := (login_guard_early_return envNoLogin (by with_unfolding_all rfl)
    (by with_unfolding_all rfl) (by with_unfolding_all rfl)).1 (by with_unfolding_all rfl)
  have hb := (login_guard_early_return envHappy (by with_unfolding_all rfl)
    (by with_unfolding_all rfl) (by with_unfolding_all rfl)).2 (by with_unfolding_all rfl)
  exact ⟨ha.1, ha.2.2, hb⟩

/-- C7: when the registration step fails (and its body read does not
throw), neither variant stops there: both record the two register check
outcomes as evaluated — at least one of them false — and still issue the
login request as the second request of the iteration. -/
theorem register_failure_continues (env : Env)
    (hs : regReadSafePart env = true)
    (hf : regReadSafeFull env = true)
    (h : regFailedPart env = true) :
    (journeyPart env).requests.take 2 = [⟨.post, .register⟩, ⟨.post, .login⟩] ∧
    (journeyPart env).checks.take 2 =
      [("RegisterUser | status 201", env.reg.status == 201),
       ("RegisterUser | username matches",
        jsStrictEq (getFieldQuiet (registerBodyPart env) "username")
          (.str ("test_" ++ env.userSuffix)))] ∧
    (env.reg.status == 201 &&
       jsStrictEq (getFieldQuiet (registerBodyPart env) "username")
         (.str ("test_" ++ env.userSuffix))) = false ∧
    (journeyFull env).requests.take 2 = [⟨.post, .register⟩, ⟨.post, .login⟩] := by
  have hreg : isNullish (registerBodyPart env) = false := by
    unfold registerBodyPart
    by_cases hc : (env.reg.status == 201) = true
    · simp only [regReadSafePart, hc, bne, Bool.not_true, Bool.false_or] at hs
      simp only [hc, if_true]
      simpa using hs
    · simp [hc, isNullish]
  have hu := getFieldE_ok (registerBodyPart env) "username" hreg
  have hfu := getFieldE_ok env.reg.body "username"
    (by simpa [regReadSafeFull] using hf)
  refine ⟨?_, ?_, ?_, ?_⟩
  · simp only [journeyPart, hu]
    clear h hs hf hreg hu hfu
    repeat'
      first
      | (simp; done)
      | split
  · simp only [journeyPart, hu]
    clear h hs hf hreg hu hfu
    repeat'
      first
      | (simp; done)
      | split
  · have hb := h
    simp only [regFailedPart] at hb
    simp at hb ⊢
    tauto
  · simp only [journeyFull, hfu]
    clear h hs hf hreg hu hfu
    repeat'
      first
      | (simp; done)
      | split

/-- Witness for register_failure_continues: a 400 register response (and
readable bodies) still leads to the login request in both variants. -/
theorem register_failure_continues_witness :
    (journeyPart envNoLogin).requests.take 2 = [⟨.post, .register⟩, ⟨.post, .login⟩] ∧
    (journeyFull envNoLogin).requests.take 2 = [⟨.post, .register⟩, ⟨.post, .login⟩] := by
  have h := register_failure_continues envNoLogin (by with_unfolding_all rfl)
    (by with_unfolding_all rfl) (by with_unfolding_all rfl)
  exact ⟨h.1, h.2.2.2⟩
